import Mathlib

/-!
Shallow embedding of `src/jeopardy.js` (a browser Jeopardy board).

The JavaScript file is event-driven glue: it fetches a pool of category
ids, samples `NUM_CATEGORIES` of them, fetches each category's title and
clues, renders a table, and toggles each clue cell between hidden,
question and answer states on click.

Modelling choices:
* Network responses come from an oracle `Net`.  Each call of
  `getCategoryIds` (the request to `categories?count=100`) together with
  the per-category requests it leads to forms a *round*; the oracle is
  indexed by the round number so that distinct rounds may receive
  distinct responses, as on a real network.  The randomness inside
  lodash `_.sampleSize` (which shuffles a copy of the list and takes a
  prefix) is the oracle's `shuffle` field; theorems that need it assume
  the shuffle really permutes its input.
* Failure (a rejected promise / a thrown exception) is `Except`.
  `promiseAll` is `Promise.all`: it succeeds exactly when every member
  succeeds.
* The DOM is explicit data: a table is its header rows and body rows of
  cells, a cell carries its class attribute, its optional `clue`
  expando property and its text; the loading spinner is its CSS
  `display` value and the fetch button its `disabled` flag and label.
* Property access on possibly-`undefined` JavaScript values is made
  explicit by `JSVal` and `getProp`, so `handleClick`'s behaviour on a
  plain DOM element (as passed by the registered listener) is captured,
  including the `TypeError` it raises.
* Functions that issue network requests also return the list of
  requests they issued, so double-fetching is a provable statement.
-/

def NUM_CATEGORIES : Nat := 6

def NUM_CLUES_PER_CAT : Nat := 5

/-- A clue record as built by `getCategory`:
`{question, answer, showing}` with `showing` one of
`null`, `"question"`, `"answer"` (modelled as `Option String`,
`none` standing for `null`). -/
structure Clue where
  question : String
  answer : String
  showing : Option String
deriving Repr, DecidableEq

/-- A category record: `{title, clues}`. -/
structure Category where
  title : String
  clues : List Clue
deriving Repr, DecidableEq

/-- One element of the response to `categories?count=100`; the code
only reads its `id` field. -/
structure CatIdRec where
  id : Nat
deriving Repr, DecidableEq

/-- A raw clue as it appears in the `categories/{id}/clues` response. -/
structure RawClue where
  question : String
  answer : String
deriving Repr, DecidableEq

/-- The shape of a successful `categories/{id}/clues` response body. -/
structure CatResponse where
  title : String
  clues : List RawClue
deriving Repr, DecidableEq

/-- A JavaScript error (exception / rejected promise), carried as its
message. -/
abbrev JsErr := String

/-- The network oracle.  `idsResp r` answers the `r`-th request to
`categories?count=100`; `shuffle r` is the permutation lodash draws in
round `r`; `catResp r catId` answers the round-`r` request to
`categories/{catId}/clues`. -/
structure Net where
  idsResp : Nat → Except JsErr (List CatIdRec)
  shuffle : Nat → List Nat → List Nat
  catResp : Nat → Nat → Except JsErr CatResponse

/-- lodash `_.sampleSize(xs, n)`: shuffle a copy of the collection and
take the first `n` elements (all of them when `n` exceeds the size). -/
def sampleSize (shuffled : List Nat) (n : Nat) : List Nat :=
  shuffled.take n

/-- `getCategoryIds` (src/jeopardy.js lines 32-36): fetch the pool,
map each record to its `id`, and return
`_.sampleSize(catIds, NUM_CATEGORIES)`. -/
def getCategoryIds (net : Net) (round : Nat) : Except JsErr (List Nat) :=
  match net.idsResp round with
  | .error e => .error e
  | .ok pool =>
      let catIds := pool.map (fun category => category.id)
      .ok (sampleSize (net.shuffle round catIds) NUM_CATEGORIES)

/-- `getCategory` (src/jeopardy.js lines 50-74): on a successful
response, extract the title and map every response clue to
`{question, answer, showing: null}`; on any error inside the `try`
block, rethrow `new Error('Failed to retrieve category data')`. -/
def getCategory (resp : Except JsErr CatResponse) : Except JsErr Category :=
  match resp with
  | .error _ => .error "Failed to retrieve category data"
  | .ok categoryData =>
      .ok { title := categoryData.title
            clues := categoryData.clues.map (fun clue =>
              { question := clue.question
                answer := clue.answer
                showing := none }) }

/-- `Promise.all`: resolves with the list of results when every member
resolves, rejects when any member rejects. -/
def promiseAll : List (Except JsErr α) → Except JsErr (List α)
  | [] => .ok []
  | x :: xs =>
      match x, promiseAll xs with
      | .error e, _ => .error e
      | .ok _, .error e => .error e
      | .ok a, .ok rest => .ok (a :: rest)

/-- A table cell: its class list (the parsed `class` attribute), its
optional `clue` expando property, and its displayed text. -/
structure Cell where
  classList : List String
  clueProp : Option Clue
  text : String
deriving Repr, DecidableEq

/-- The `table#jeopardy` element: rows of its header and rows of its
body. -/
structure Table where
  headerRows : List (List Cell)
  bodyRows : List (List Cell)
deriving Repr, DecidableEq

/-- The `#fetch-data-button` element. -/
structure Button where
  disabled : Bool
  textContent : String
deriving Repr, DecidableEq

/-- The mutable state the script touches: the module-level `categories`
list, the table, the spinner's CSS `display` value and the fetch
button. -/
structure AppState where
  categories : List Category
  table : Table
  spinnerDisplay : String
  fetchDataButton : Button
deriving Repr, DecidableEq

/-- A network request, as issued: the id-pool request or a
per-category clue request. -/
inductive Request where
  | idsReq : Request
  | cluesReq : Nat → Request
deriving Repr, DecidableEq

/-- The header cell `fillTable` builds for one category: a `<th>` with
the title as text, no class attribute, no `clue` property. -/
def headerCellFor (category : Category) : Cell :=
  { classList := [], clueProp := none, text := category.title }

/-- The body cell `fillTable` builds: a plain `<td>` holding a span
whose text is `"?"`; no class attribute, no `clue` property. -/
def bodyCellPlaceholder : Cell :=
  { classList := [], clueProp := none, text := "?" }

/-- `fillTable` (src/jeopardy.js lines 85-121).  Inside one `try`:
fetch the ids, fetch every category (`Promise.all`), assign the global
`categories`, then append one header row of titles and
`NUM_CLUES_PER_CAT` body rows of `"?"` cells.  Any error is caught and
nothing else happens.  Returns the new state and the requests
issued. -/
def fillTable (net : Net) (round : Nat) (st : AppState) :
    AppState × List Request :=
  match getCategoryIds net round with
  | .error _ => (st, [Request.idsReq])
  | .ok categoryIds =>
      let reqs := Request.idsReq :: categoryIds.map Request.cluesReq
      match promiseAll (categoryIds.map
          (fun catId => getCategory (net.catResp round catId))) with
      | .error _ => (st, reqs)
      | .ok cats =>
          ({ st with
              categories := cats
              table :=
                { headerRows :=
                    st.table.headerRows ++ [cats.map headerCellFor]
                  bodyRows :=
                    st.table.bodyRows ++
                      (List.range NUM_CLUES_PER_CAT).map
                        (fun _ => cats.map (fun _ => bodyCellPlaceholder)) } },
            reqs)

/-- The pure core of `handleClick` (src/jeopardy.js lines 142-151),
acting on the clicked element's `textContent` and the clue record:
`null → "question"` showing the question, `"question" → "answer"`
showing the answer, anything else ignored. -/
def handleClick (textContent : String) (clue : Clue) : String × Clue :=
  match clue.showing with
  | none => (clue.question, { clue with showing := some "question" })
  | some showing =>
      if showing = "question" then
        (clue.answer, { clue with showing := some "answer" })
      else
        (textContent, clue)

/-- `showLoadingView` (src/jeopardy.js lines 159-180): wipe the table
(`innerHTML = ''`), show the spinner, disable the button and label it
`Loading...`. -/
def showLoadingView (st : AppState) : AppState :=
  { st with
      table := { headerRows := [], bodyRows := [] }
      spinnerDisplay := "block"
      fetchDataButton := { disabled := true, textContent := "Loading..." } }

/-- `hideLoadingView` (src/jeopardy.js lines 185-194): hide the
spinner, enable the button and label it `Fetch Data`. -/
def hideLoadingView (st : AppState) : AppState :=
  { st with
      spinnerDisplay := "none"
      fetchDataButton := { disabled := false, textContent := "Fetch Data" } }

/-- The body of `setupAndStart` after its first statement
(src/jeopardy.js lines 208-220): fetch ids (round 0), fetch every
category, bind the result to a *local* `categories`, then call
`fillTable(categories)` — `fillTable` declares no parameter and
refetches on its own (round 1).  Errors before the `fillTable` call are
caught and stop the run. -/
def setupAndStartBody (net : Net) (st : AppState) :
    AppState × List Request :=
  match getCategoryIds net 0 with
  | .error _ => (st, [Request.idsReq])
  | .ok categoryIds =>
      let reqs0 := Request.idsReq :: categoryIds.map Request.cluesReq
      match promiseAll (categoryIds.map
          (fun catId => getCategory (net.catResp 0 catId))) with
      | .error _ => (st, reqs0)
      | .ok _localCategories =>
          let result := fillTable net 1 st
          (result.1, reqs0 ++ result.2)

/-- `setupAndStart` (src/jeopardy.js lines 203-221): its first
statement is `hideLoadingView()`, then the fetching body runs. -/
def setupAndStart (net : Net) (st : AppState) : AppState × List Request :=
  setupAndStartBody net (hideLoadingView st)

/-- `startGame` (src/jeopardy.js lines 229-232):
`showLoadingView(); setupAndStart();`. -/
def startGame (net : Net) (st : AppState) : AppState × List Request :=
  setupAndStart net (showLoadingView st)

/-- Number of id-pool requests in a request log. -/
def countIdsReqs (log : List Request) : Nat :=
  log.countP (fun r => match r with | .idsReq => true | _ => false)

/-! ### JavaScript value semantics for `handleClick`'s entry path -/

/-- The JavaScript values `handleClick`'s entry path can meet:
`undefined`, a DOM cell element, an event whose `target` is some
value, a clue record, or a string. -/
inductive JSVal where
  | undefinedVal : JSVal
  | elemCell : Cell → JSVal
  | event : JSVal → JSVal
  | clueV : Clue → JSVal
  | str : String → JSVal
deriving Repr, DecidableEq

/-- The `TypeError` thrown when a property is read off `undefined`. -/
def tyErr (name : String) : JsErr :=
  "TypeError: Cannot read properties of undefined (reading " ++ name ++ ")"

/-- JavaScript property access: reading off `undefined` throws a
`TypeError`; an event exposes `target`; a cell element exposes `clue`
(possibly `undefined`) but has no `target` property; any other access
yields `undefined`. -/
def getProp : JSVal → String → Except JsErr JSVal
  | .undefinedVal, name => .error (tyErr name)
  | .event target, name =>
      if name = "target" then .ok target else .ok .undefinedVal
  | .elemCell cell, name =>
      if name = "clue" then
        .ok (match cell.clueProp with
             | none => .undefinedVal
             | some clue => .clueV clue)
      else .ok .undefinedVal
  | .clueV _, _ => .ok .undefinedVal
  | .str _, _ => .ok .undefinedVal

/-- `handleClick(evt)` (src/jeopardy.js lines 131-152) with
JavaScript's property-access semantics spelled out:
`evt.target`, then `clueElement.clue`, then `clue.showing`, then the
toggle.  Reading a property off `undefined` throws. -/
def handleClickJS (evt : JSVal) : Except JsErr (Cell × Clue) :=
  match getProp evt "target" with
  | .error e => .error e
  | .ok .undefinedVal => .error (tyErr "clue")
  | .ok (.elemCell cell) =>
      match cell.clueProp with
      | none => .error (tyErr "showing")
      | some clue =>
          let result := handleClick cell.text clue
          .ok ({ cell with text := result.1 }, result.2)
  | .ok _ => .error (tyErr "showing")

/-- Does a DOM element carry the given class?  (`querySelectorAll`
matching on the `class` attribute.) -/
def hasClass (cell : Cell) (cls : String) : Bool :=
  cell.classList.contains cls

/-- `addClueClickHandler` (src/jeopardy.js lines 242-249): select the
elements matching `.clue` and attach the click listener to each;
returns the elements that received a listener. -/
def addClueClickHandler (els : List Cell) : List Cell :=
  els.filter (fun cell => hasClass cell "clue")

/-- The registered listener body:
`function() { handleClick(this) }` — `handleClick` applied to the DOM
element itself, not to an event. -/
def clueListener (el : Cell) : Except JsErr (Cell × Clue) :=
  handleClickJS (JSVal.elemCell el)

/-! ### Concrete oracles and states used by witnesses and
counterexamples -/

/-- An all-succeeding oracle: a pool of seven distinct ids, the
identity shuffle (a legitimate outcome of lodash's Fisher-Yates), and
a well-shaped one-clue response for every category. -/
def netOk : Net :=
  { idsResp := fun _ =>
      .ok [⟨1⟩, ⟨2⟩, ⟨3⟩, ⟨4⟩, ⟨5⟩, ⟨6⟩, ⟨7⟩]
    shuffle := fun _ xs => xs
    catResp := fun _ catId =>
      .ok { title := "T" ++ toString catId
            clues := [{ question := "q", answer := "a" }] } }

/-- An oracle whose id-pool request fails. -/
def netIdsFail : Net :=
  { idsResp := fun _ => .error "Network Error"
    shuffle := fun _ xs => xs
    catResp := fun _ catId =>
      .ok { title := "T" ++ toString catId
            clues := [{ question := "q", answer := "a" }] } }

/-- An oracle whose id pool holds the same id twice. -/
def netDupPool : Net :=
  { idsResp := fun _ => .ok [⟨1⟩, ⟨1⟩]
    shuffle := fun _ xs => xs
    catResp := fun _ _ => .error "Network Error" }

/-- The category list `netOk` leads to: ids `1..6`, one clue each. -/
def catsOk : List Category :=
  [{ title := "T1", clues := [{ question := "q", answer := "a", showing := none }] },
   { title := "T2", clues := [{ question := "q", answer := "a", showing := none }] },
   { title := "T3", clues := [{ question := "q", answer := "a", showing := none }] },
   { title := "T4", clues := [{ question := "q", answer := "a", showing := none }] },
   { title := "T5", clues := [{ question := "q", answer := "a", showing := none }] },
   { title := "T6", clues := [{ question := "q", answer := "a", showing := none }] }]

/-- A starting state with some previous board on screen. -/
def st0 : AppState :=
  { categories := [{ title := "Old", clues := [] }]
    table :=
      { headerRows := [[{ classList := [], clueProp := none, text := "Old" }]]
        bodyRows := [[bodyCellPlaceholder]] }
    spinnerDisplay := "none"
    fetchDataButton := { disabled := false, textContent := "Fetch Data" } }

/-! ### C1: the clue toggle -/

/-- **C1.** For a clue record as initialised by the loader
(`showing = null`), successive applications of `handleClick` show the
question (setting `showing` to `"question"`), then the answer (setting
`showing` to `"answer"`), and a further click changes neither the text
nor the state; moreover no application of `handleClick` ever moves
`showing` backwards: every step either leaves `showing` unchanged or
advances `null → "question"` or `"question" → "answer"`. -/
theorem handleClick_hidden_question_answer :
    (∀ q a t, handleClick t { question := q, answer := a, showing := none } =
      (q, { question := q, answer := a, showing := some "question" })) ∧
    (∀ q a t, handleClick t { question := q, answer := a, showing := some "question" } =
      (a, { question := q, answer := a, showing := some "answer" })) ∧
    (∀ q a t, handleClick t { question := q, answer := a, showing := some "answer" } =
      (t, { question := q, answer := a, showing := some "answer" })) ∧
    (∀ t c, (handleClick t c).2.showing = c.showing ∨
      (c.showing = none ∧ (handleClick t c).2.showing = some "question") ∨
      (c.showing = some "question" ∧ (handleClick t c).2.showing = some "answer")) := by
  refine ⟨fun q a t => rfl, fun q a t => rfl, fun q a t => by
    simp [handleClick], fun t c => ?_⟩
  match h : c.showing with
  | none => exact Or.inr (Or.inl ⟨rfl, by simp [handleClick, h]⟩)
  | some s =>
      by_cases hs : s = "question"
      · exact Or.inr (Or.inr ⟨by rw [hs], by simp [handleClick, h, hs]⟩)
      · exact Or.inl (by simp [handleClick, h, hs])

/-! ### C8: `getCategory` error behaviour -/

/-- **C8.** `getCategory` rethrows every failure of the remote call as
`Failed to retrieve category data`, and on a successful well-shaped
response it returns a value (it throws in no other case). -/
theorem getCategory_error_wrapping :
    (∀ e, getCategory (.error e) =
      .error "Failed to retrieve category data") ∧
    (∀ r, getCategory (.ok r) =
      .ok { title := r.title
            clues := r.clues.map (fun clue =>
              { question := clue.question
                answer := clue.answer
                showing := none }) }) := by
  exact ⟨fun e => rfl, fun r => rfl⟩

/-! ### C9: the fetch button's two paired states -/

/-- **C9.** From any state, `showLoadingView` leaves the fetch button
disabled with label `Loading...`, and `hideLoadingView` leaves it
enabled with label `Fetch Data`; these two operations produce no other
combination of flag and label. -/
theorem loadingViews_button_states :
    (∀ st, (showLoadingView st).fetchDataButton =
      { disabled := true, textContent := "Loading..." }) ∧
    (∀ st, (hideLoadingView st).fetchDataButton =
      { disabled := false, textContent := "Fetch Data" }) := by
  exact ⟨fun st => rfl, fun st => rfl⟩

/-! ### Helper lemmas about `fillTable` -/

/-- Unfolding `fillTable` when both fetch stages succeed. -/
theorem fillTable_ok {net : Net} {round : Nat} (st : AppState)
    {ids : List Nat} {cats : List Category}
    (hids : getCategoryIds net round = .ok ids)
    (hcats : promiseAll (ids.map
      (fun catId => getCategory (net.catResp round catId))) = .ok cats) :
    fillTable net round st =
      ({ st with
          categories := cats
          table :=
            { headerRows := st.table.headerRows ++ [cats.map headerCellFor]
              bodyRows := st.table.bodyRows ++
                (List.range NUM_CLUES_PER_CAT).map
                  (fun _ => cats.map (fun _ => bodyCellPlaceholder)) } },
        Request.idsReq :: ids.map Request.cluesReq) := by
  simp only [fillTable, hids, hcats]

/-- Unfolding `fillTable` when the id-pool fetch fails. -/
theorem fillTable_ids_error {net : Net} {round : Nat} (st : AppState)
    {e : JsErr} (hids : getCategoryIds net round = .error e) :
    fillTable net round st = (st, [Request.idsReq]) := by
  simp only [fillTable, hids]

/-- Unfolding `fillTable` when some per-category fetch fails. -/
theorem fillTable_cats_error {net : Net} {round : Nat} (st : AppState)
    {ids : List Nat} {e : JsErr}
    (hids : getCategoryIds net round = .ok ids)
    (hcats : promiseAll (ids.map
      (fun catId => getCategory (net.catResp round catId))) = .error e) :
    fillTable net round st =
      (st, Request.idsReq :: ids.map Request.cluesReq) := by
  simp only [fillTable, hids, hcats]

/-- `fillTable` never touches the spinner or the fetch button. -/
theorem fillTable_preserves_ui (net : Net) (round : Nat) (st : AppState) :
    (fillTable net round st).1.spinnerDisplay = st.spinnerDisplay ∧
    (fillTable net round st).1.fetchDataButton = st.fetchDataButton := by
  cases hids : getCategoryIds net round with
  | error e => rw [fillTable_ids_error st hids]; exact ⟨rfl, rfl⟩
  | ok ids =>
      cases hcats : promiseAll (ids.map
          (fun catId => getCategory (net.catResp round catId))) with
      | error e => rw [fillTable_cats_error st hids hcats]; exact ⟨rfl, rfl⟩
      | ok cats => rw [fillTable_ok st hids hcats]; exact ⟨rfl, rfl⟩

/-! ### C5: failed fetches leave the board and `categories` untouched -/

/-- **C5.** If the id-pool fetch or any per-category fetch fails inside
`fillTable`, the resulting state is exactly the previous one: no header
row and no body row is appended and the module-level `categories` keeps
its previous value. -/
theorem fillTable_failure_changes_nothing (net : Net) (round : Nat)
    (st : AppState)
    (h : (∃ e, getCategoryIds net round = .error e) ∨
      (∃ ids e, getCategoryIds net round = .ok ids ∧
        promiseAll (ids.map
          (fun catId => getCategory (net.catResp round catId))) = .error e)) :
    (fillTable net round st).1 = st := by
  rcases h with ⟨e, he⟩ | ⟨ids, e, hids, hcats⟩
  · rw [fillTable_ids_error st he]
  · rw [fillTable_cats_error st hids hcats]

/-- Witness for C5: with an oracle whose id-pool request fails, the
concrete starting state survives `fillTable` unchanged. -/
theorem fillTable_failure_changes_nothing_witness :
    (fillTable netIdsFail 0 st0).1 = st0 :=
  fillTable_failure_changes_nothing netIdsFail 0 st0
    (Or.inl ⟨"Network Error", rfl⟩)

/-! ### C6: the grid's shape on success -/

/-- **C6.** When both fetch stages succeed with category list `cats`,
`fillTable` appends exactly one header row holding one cell per
category whose text is that category's title, and exactly
`NUM_CLUES_PER_CAT` body rows, each holding one cell per category
whose text is `"?"`. -/
theorem fillTable_grid_shape (net : Net) (round : Nat) (st : AppState)
    (ids : List Nat) (cats : List Category)
    (hids : getCategoryIds net round = .ok ids)
    (hcats : promiseAll (ids.map
      (fun catId => getCategory (net.catResp round catId))) = .ok cats) :
    (fillTable net round st).1.table.headerRows =
      st.table.headerRows ++ [cats.map headerCellFor] ∧
    (cats.map headerCellFor).length = cats.length ∧
    (cats.map headerCellFor).map Cell.text = cats.map Category.title ∧
    (fillTable net round st).1.table.bodyRows =
      st.table.bodyRows ++
        List.replicate NUM_CLUES_PER_CAT (cats.map (fun _ => bodyCellPlaceholder)) ∧
    (List.replicate NUM_CLUES_PER_CAT
      (cats.map (fun _ => bodyCellPlaceholder))).length = NUM_CLUES_PER_CAT ∧
    (cats.map (fun _ => bodyCellPlaceholder)).length = cats.length ∧
    (cats.map (fun _ => bodyCellPlaceholder)).map Cell.text =
      List.replicate cats.length "?" := by
  rw [fillTable_ok st hids hcats]
  refine ⟨rfl, List.length_map _ _, ?_, ?_, List.length_replicate _ _,
    List.length_map _ _, ?_⟩
  · rw [List.map_map]; rfl
  · simp [List.map_const']
  · rw [List.map_map]
    have : (Cell.text ∘ fun _ : Category => bodyCellPlaceholder) =
        fun _ : Category => "?" := rfl
    rw [this, List.map_const']

/-! ### C2: clicks on the rendered board never reach the toggle -/

/-- **C2.** (i) The registered listener calls `handleClick` on the DOM
element itself; since an element has no `target` property, the handler
throws a `TypeError` reading `clue` off `undefined`, for every element.
(ii) `addClueClickHandler` attaches listeners only to elements of class
`clue`.  (iii) Every body row `fillTable` appends consists of cells
with no class attribute and no `clue` property, so `addClueClickHandler`
attaches no listener to any of them — no clue's `showing` can change
through the rendered board.  (iv) `handleClick` reaches the toggle only
for an event whose target element carries a defined `clue` property
(and then performs the toggle); with an undefined `clue` property it
throws reading `showing`. -/
theorem rendered_cells_never_toggle (net : Net) (round : Nat)
    (st : AppState) (ids : List Nat) (cats : List Category)
    (hids : getCategoryIds net round = .ok ids)
    (hcats : promiseAll (ids.map
      (fun catId => getCategory (net.catResp round catId))) = .ok cats) :
    (∀ el : Cell, clueListener el = .error (tyErr "clue")) ∧
    (∀ els : List Cell, ∀ el ∈ addClueClickHandler els,
      hasClass el "clue" = true) ∧
    (fillTable net round st).1.table.bodyRows =
      st.table.bodyRows ++
        (List.range NUM_CLUES_PER_CAT).map
          (fun _ => cats.map (fun _ => bodyCellPlaceholder)) ∧
    (∀ row ∈ (List.range NUM_CLUES_PER_CAT).map
        (fun _ => cats.map (fun _ => bodyCellPlaceholder)),
      addClueClickHandler row = [] ∧
      ∀ cell ∈ row, hasClass cell "clue" = false ∧ cell.clueProp = none) ∧
    (∀ cell : Cell, cell.clueProp = none →
      handleClickJS (JSVal.event (JSVal.elemCell cell)) =
        .error (tyErr "showing")) ∧
    (∀ cell : Cell, ∀ clue : Clue, cell.clueProp = some clue →
      handleClickJS (JSVal.event (JSVal.elemCell cell)) =
        .ok ({ cell with text := (handleClick cell.text clue).1 },
          (handleClick cell.text clue).2)) := by
  refine ⟨fun el => rfl, ?_, ?_, ?_, ?_, ?_⟩
  · intro els el hel
    exact (List.mem_filter.mp hel).2
  · rw [fillTable_ok st hids hcats]
  · intro row hrow
    rcases List.mem_map.mp hrow with ⟨n, -, hn⟩
    constructor
    · show List.filter _ row = []
      rw [List.filter_eq_nil_iff]
      intro cell hcell
      rcases List.mem_map.mp (hn ▸ hcell) with ⟨cat, -, hcat⟩
      rw [← hcat]
      decide
    · intro cell hcell
      rcases List.mem_map.mp (hn ▸ hcell) with ⟨cat, -, hcat⟩
      rw [← hcat]
      exact ⟨by decide, rfl⟩
  · intro cell hcell
    simp [handleClickJS, getProp, hcell]
  · intro cell clue hclue
    simp [handleClickJS, getProp, hclue]

/-- Witness for C2: the listener throws on a concrete placeholder cell,
and the concrete rendered row receives no listener. -/
theorem rendered_cells_never_toggle_witness :
    clueListener bodyCellPlaceholder = .error (tyErr "clue") ∧
    addClueClickHandler (catsOk.map (fun _ => bodyCellPlaceholder)) = [] := by
  have h := rendered_cells_never_toggle netOk 0 st0 [1, 2, 3, 4, 5, 6]
    catsOk rfl rfl
  exact ⟨h.1 bodyCellPlaceholder,
    (h.2.2.2.1 (catsOk.map (fun _ => bodyCellPlaceholder))
      (List.mem_map.mpr ⟨0, List.mem_range.mpr (by decide), rfl⟩)).1⟩

/-! ### C3: `getCategory` output shape (corrected) -/

/-- **C3 counterexample.** On a well-shaped response holding a single
clue, `getCategory` succeeds with a one-element clue list — not a list
of `NUM_CLUES_PER_CAT` clues: the code maps over all response clues
and never truncates or pads to the configured size. -/
theorem getCategory_counterexample :
    getCategory (.ok { title := "T"
                       clues := [{ question := "q", answer := "a" }] }) =
      .ok { title := "T"
            clues := [{ question := "q", answer := "a", showing := none }] } ∧
    ¬ ([{ question := "q", answer := "a", showing := none }] : List Clue).length
        = NUM_CLUES_PER_CAT := by
  exact ⟨rfl, by decide⟩

/-- **C3 (amended).** On every successful call, `getCategory` returns
the category's title together with one clue per clue of the response
(the clue list's length equals the response's clue count, not
necessarily `NUM_CLUES_PER_CAT`), and every returned clue's `showing`
field is the hidden state `null`. -/
theorem getCategory_success_shape (r : CatResponse) :
    getCategory (.ok r) =
      .ok { title := r.title
            clues := r.clues.map (fun clue =>
              { question := clue.question
                answer := clue.answer
                showing := none }) } ∧
    (r.clues.map (fun clue =>
      ({ question := clue.question
         answer := clue.answer
         showing := none } : Clue))).length = r.clues.length ∧
    (r.clues.map (fun clue =>
      ({ question := clue.question
         answer := clue.answer
         showing := none } : Clue))).map Clue.showing =
      List.replicate r.clues.length none := by
  refine ⟨rfl, List.length_map _ _, ?_⟩
  rw [List.map_map]
  have : (Clue.showing ∘ fun clue : RawClue =>
      ({ question := clue.question
         answer := clue.answer
         showing := none } : Clue)) = fun _ : RawClue => (none : Option String) := rfl
  rw [this, List.map_const']

/-! ### C4: the category-id sample (corrected) -/

/-- **C4 counterexample.** With a pool holding the id `1` twice (and
the identity shuffle, a legitimate outcome of lodash's Fisher-Yates),
`getCategoryIds` returns `[1, 1]`: neither `NUM_CATEGORIES` many ids
nor pairwise distinct ones. -/
theorem getCategoryIds_counterexample :
    (netDupPool.shuffle 0 [1, 1]).Perm [1, 1] ∧
    getCategoryIds netDupPool 0 = .ok [1, 1] ∧
    ¬ ([1, 1] : List Nat).length = NUM_CATEGORIES ∧
    ¬ ([1, 1] : List Nat).Nodup := by
  exact ⟨List.Perm.refl _, rfl, by decide, by decide⟩

/-- **C4 (amended).** Whenever the pool request succeeds and the
shuffle lodash draws is a permutation of the id list,
`getCategoryIds` succeeds and returns
`min NUM_CATEGORIES (pool length)` ids, each drawn from the pool; the
returned ids are pairwise distinct whenever the pool's ids are, and in
particular a pool of at least `NUM_CATEGORIES` pairwise-distinct ids
yields exactly `NUM_CATEGORIES` pairwise-distinct members of the
pool. -/
theorem getCategoryIds_sample (net : Net) (round : Nat)
    (pool : List CatIdRec)
    (hpool : net.idsResp round = .ok pool)
    (hperm : (net.shuffle round (pool.map CatIdRec.id)).Perm
      (pool.map CatIdRec.id)) :
    getCategoryIds net round =
      .ok (sampleSize (net.shuffle round (pool.map CatIdRec.id))
        NUM_CATEGORIES) ∧
    (sampleSize (net.shuffle round (pool.map CatIdRec.id))
      NUM_CATEGORIES).length = min NUM_CATEGORIES pool.length ∧
    (∀ x ∈ sampleSize (net.shuffle round (pool.map CatIdRec.id))
        NUM_CATEGORIES, x ∈ pool.map CatIdRec.id) ∧
    ((pool.map CatIdRec.id).Nodup →
      (sampleSize (net.shuffle round (pool.map CatIdRec.id))
        NUM_CATEGORIES).Nodup) ∧
    (NUM_CATEGORIES ≤ pool.length →
      (sampleSize (net.shuffle round (pool.map CatIdRec.id))
        NUM_CATEGORIES).length = NUM_CATEGORIES) := by
  have hlen : (net.shuffle round (pool.map CatIdRec.id)).length =
      pool.length := by
    rw [hperm.length_eq, List.length_map]
  refine ⟨?_, ?_, ?_, ?_, ?_⟩
  · simp only [getCategoryIds, hpool]
  · rw [sampleSize, List.length_take, hlen]
  · intro x hx
    exact hperm.mem_iff.mp (List.take_subset _ _ hx)
  · intro hnd
    exact List.Nodup.sublist (List.take_sublist _ _) (hperm.nodup_iff.mpr hnd)
  · intro hle
    rw [sampleSize, List.length_take, hlen]
    exact Nat.min_eq_left hle

/-- Witness for C4 (amended): the concrete seven-element distinct pool
yields exactly the six distinct ids `1..6`. -/
theorem getCategoryIds_sample_witness :
    getCategoryIds netOk 0 = .ok [1, 2, 3, 4, 5, 6] ∧
    ([1, 2, 3, 4, 5, 6] : List Nat).length = NUM_CATEGORIES ∧
    ([1, 2, 3, 4, 5, 6] : List Nat).Nodup := by
  have h := getCategoryIds_sample netOk 0
    [⟨1⟩, ⟨2⟩, ⟨3⟩, ⟨4⟩, ⟨5⟩, ⟨6⟩, ⟨7⟩] rfl (List.Perm.refl _)
  exact ⟨h.1, h.2.2.2.2 (by decide), h.2.2.2.1 (by decide)⟩

/-! ### Helper lemmas about request logs and `setupAndStartBody` -/

/-- Per-category requests are not id-pool requests. -/
theorem countIdsReqs_cluesReqs (xs : List Nat) :
    countIdsReqs (xs.map Request.cluesReq) = 0 := by
  induction xs with
  | nil => rfl
  | cons x xs ih =>
      simp [countIdsReqs, List.countP_cons] at ih ⊢

/-- Request logs concatenate additively. -/
theorem countIdsReqs_append (l1 l2 : List Request) :
    countIdsReqs (l1 ++ l2) = countIdsReqs l1 + countIdsReqs l2 :=
  List.countP_append _ _ _

/-- Every run of `fillTable` issues exactly one id-pool request. -/
theorem countIdsReqs_fillTable (net : Net) (round : Nat) (st : AppState) :
    countIdsReqs (fillTable net round st).2 = 1 := by
  cases hids : getCategoryIds net round with
  | error e => rw [fillTable_ids_error st hids]; rfl
  | ok ids =>
      cases hcats : promiseAll (ids.map
          (fun catId => getCategory (net.catResp round catId))) with
      | error e =>
          rw [fillTable_cats_error st hids hcats]
          simp [countIdsReqs, List.countP_cons]
      | ok cats =>
          rw [fillTable_ok st hids hcats]
          simp [countIdsReqs, List.countP_cons]

/-- Unfolding `setupAndStartBody` when its round-0 id fetch fails. -/
theorem setupAndStartBody_ids_error {net : Net} (st : AppState)
    {e : JsErr} (hids : getCategoryIds net 0 = .error e) :
    setupAndStartBody net st = (st, [Request.idsReq]) := by
  simp only [setupAndStartBody, hids]

/-- Unfolding `setupAndStartBody` when a round-0 category fetch
fails. -/
theorem setupAndStartBody_cats_error {net : Net} (st : AppState)
    {ids0 : List Nat} {e : JsErr}
    (hids : getCategoryIds net 0 = .ok ids0)
    (hcats : promiseAll (ids0.map
      (fun catId => getCategory (net.catResp 0 catId))) = .error e) :
    setupAndStartBody net st =
      (st, Request.idsReq :: ids0.map Request.cluesReq) := by
  simp only [setupAndStartBody, hids, hcats]

/-- Unfolding `setupAndStartBody` when round 0 succeeds: the local
result is dropped and `fillTable` runs as round 1. -/
theorem setupAndStartBody_ok {net : Net} (st : AppState)
    {ids0 : List Nat} {cats0 : List Category}
    (hids : getCategoryIds net 0 = .ok ids0)
    (hcats : promiseAll (ids0.map
      (fun catId => getCategory (net.catResp 0 catId))) = .ok cats0) :
    setupAndStartBody net st =
      ((fillTable net 1 st).1,
       (Request.idsReq :: ids0.map Request.cluesReq) ++
         (fillTable net 1 st).2) := by
  simp only [setupAndStartBody, hids, hcats]

/-! ### C7: the double fetch -/

/-- **C7.** When the fetches `setupAndStart` issues itself (round 0)
succeed, the final state is exactly the state `fillTable` computes
from its own round-1 fetches — the categories computed locally in
`setupAndStart` (`cats0`) do not appear in the result — and the run
issues the id-pool request exactly twice (once in `setupAndStart`,
once more in `fillTable`, which takes no parameter and refetches
independently), with a round-0 clue request per sampled id ahead of
`fillTable`'s own requests. -/
theorem setupAndStart_double_fetch (net : Net) (st : AppState)
    (ids0 : List Nat) (cats0 : List Category)
    (hids : getCategoryIds net 0 = .ok ids0)
    (hcats : promiseAll (ids0.map
      (fun catId => getCategory (net.catResp 0 catId))) = .ok cats0) :
    (setupAndStart net st).1 = (fillTable net 1 (hideLoadingView st)).1 ∧
    (setupAndStart net st).2 =
      (Request.idsReq :: ids0.map Request.cluesReq) ++
        (fillTable net 1 (hideLoadingView st)).2 ∧
    countIdsReqs (setupAndStart net st).2 = 2 := by
  have hbody := setupAndStartBody_ok (hideLoadingView st) hids hcats
  refine ⟨?_, ?_, ?_⟩
  · rw [setupAndStart, hbody]
  · rw [setupAndStart, hbody]
  · rw [setupAndStart, hbody]
    show countIdsReqs (_ ++ _) = 2
    rw [countIdsReqs_append, countIdsReqs_fillTable]
    have : countIdsReqs (Request.idsReq :: ids0.map Request.cluesReq) = 1 := by
      simp [countIdsReqs, List.countP_cons]
    rw [this]

/-- Witness for C7: on the all-succeeding concrete oracle, a run of
`setupAndStart` issues the id-pool request exactly twice and ends in
`fillTable`'s round-1 state. -/
theorem setupAndStart_double_fetch_witness :
    (setupAndStart netOk st0).1 = (fillTable netOk 1 (hideLoadingView st0)).1 ∧
    countIdsReqs (setupAndStart netOk st0).2 = 2 := by
  have h := setupAndStart_double_fetch netOk st0 [1, 2, 3, 4, 5, 6] catsOk
    rfl rfl
  exact ⟨h.1, h.2.2⟩

/-! ### C10: the loading view is never up while fetching -/

/-- **C10.** `startGame` runs `showLoadingView` and then
`setupAndStart`, whose first statement is `hideLoadingView` — before
any fetch: every run factors through
`setupAndStartBody net (hideLoadingView (showLoadingView st))`, the
state entering the fetching body always has the spinner hidden
(`display: none`) and the button enabled with label `Fetch Data`, and
the fetching body never changes the spinner or the button, so the
loading view shown by `showLoadingView` is not up while requests are
in flight. -/
theorem startGame_loading_hidden_during_fetch :
    (∀ net st, startGame net st =
      setupAndStartBody net (hideLoadingView (showLoadingView st))) ∧
    (∀ st, (hideLoadingView (showLoadingView st)).spinnerDisplay = "none") ∧
    (∀ st, (hideLoadingView (showLoadingView st)).fetchDataButton =
      { disabled := false, textContent := "Fetch Data" }) ∧
    (∀ net st, (setupAndStartBody net st).1.spinnerDisplay =
        st.spinnerDisplay ∧
      (setupAndStartBody net st).1.fetchDataButton = st.fetchDataButton) := by
  refine ⟨fun net st => rfl, fun st => rfl, fun st => rfl, fun net st => ?_⟩
  cases hids : getCategoryIds net 0 with
  | error e => rw [setupAndStartBody_ids_error st hids]; exact ⟨rfl, rfl⟩
  | ok ids0 =>
      cases hcats : promiseAll (ids0.map
          (fun catId => getCategory (net.catResp 0 catId))) with
      | error e =>
          rw [setupAndStartBody_cats_error st hids hcats]
          exact ⟨rfl, rfl⟩
      | ok cats0 =>
          rw [setupAndStartBody_ok st hids hcats]
          exact fillTable_preserves_ui net 1 st

/-- Witness for C6: on the concrete all-succeeding oracle, the board
gains one header row of the six titles and five placeholder rows. -/
theorem fillTable_grid_shape_witness :
    (fillTable netOk 0 st0).1.table.headerRows =
      st0.table.headerRows ++ [catsOk.map headerCellFor] ∧
    (catsOk.map headerCellFor).map Cell.text = catsOk.map Category.title ∧
    (List.replicate NUM_CLUES_PER_CAT
      (catsOk.map (fun _ => bodyCellPlaceholder))).length =
        NUM_CLUES_PER_CAT := by
  have h := fillTable_grid_shape netOk 0 st0 [1, 2, 3, 4, 5, 6] catsOk rfl rfl
  exact ⟨h.1, h.2.2.1, h.2.2.2.2.1⟩
